import Mathlib

namespace Killfeed

/-!
Shallow embedding of the killfeed ingestion pipeline of this repository:
the CSV event record parser, the SFTP source adapter, the per-server dedup
tracker, the stats aggregator backed by a MongoDB-style document store, and
the incremental and historical ingestion orchestrators.

Sources embedded:
  bot/parsers/killfeed_parser.py            (KillfeedParser)
  attached_assets/Ekfv10-main/bot/models/database.py   (DatabaseManager)
  attached_assets/Ekfv10-main/bot/parsers/historical_parser.py (HistoricalParser)
-/

/-! ### Python string primitives -/

/-- ASCII whitespace stripped by the Python str.strip calls on raw lines. -/
def pyIsSpace (c : Char) : Bool :=
  c = ' ' || c = '\t' || c = '\n' || c = '\x0d' || c = '\x0b' || c = '\x0c'

def pyStripList (cs : List Char) : List Char :=
  ((cs.dropWhile pyIsSpace).reverse.dropWhile pyIsSpace).reverse

/-- Models Python str.strip with no argument (ASCII whitespace subset). -/
def pyStrip (s : String) : String := String.mk (pyStripList s.data)

def pyLowerChar (c : Char) : Char :=
  if 'A' ≤ c && c ≤ 'Z' then Char.ofNat (c.toNat + 32) else c

/-- Models Python str.lower on the ASCII strings appearing in the logs. -/
def pyLower (s : String) : String := String.mk (s.data.map pyLowerChar)

/-- Models Python str.startswith. -/
def pyStartsWith (s p : String) : Bool := p.data.isPrefixOf s.data

def isInfixList (needle : List Char) : List Char → Bool
  | [] => needle.isEmpty
  | c :: cs => needle.isPrefixOf (c :: cs) || isInfixList needle cs

/-- Models the Python substring test written as: sub in s. -/
def pyContains (s sub : String) : Bool := isInfixList sub.data s.data

def replaceCharList (c : Char) (r : List Char) : List Char → List Char
  | [] => []
  | a :: as =>
    if a = c then r ++ replaceCharList c r as else a :: replaceCharList c r as

/-- Models Python str.replace for the single-character pattern used by the
parser (every occurrence of the character is replaced). -/
def pyReplaceChar (s : String) (c : Char) (r : String) : String :=
  String.mk (replaceCharList c r.data s.data)

def splitCommaAux : List Char → List Char → List String
  | [], acc => [String.mk acc.reverse]
  | a :: as, acc =>
    if a = ',' then String.mk acc.reverse :: splitCommaAux as []
    else splitCommaAux as (a :: acc)

/-- Models Python str.split on a comma: the empty string yields one empty
field, and empty fields between delimiters are kept. -/
def pySplitComma (s : String) : List String := splitCommaAux s.data []

def splitlinesAux : List Char → List Char → List String
  | [], [] => []
  | [], acc => [String.mk acc.reverse]
  | '\x0d' :: '\n' :: as, acc => String.mk acc.reverse :: splitlinesAux as []
  | '\n' :: as, acc => String.mk acc.reverse :: splitlinesAux as []
  | '\x0d' :: as, acc => String.mk acc.reverse :: splitlinesAux as []
  | a :: as, acc => splitlinesAux as (a :: acc)

/-- Models Python str.splitlines for the line breaks LF, CR and CRLF; a
trailing line break does not produce a final empty line. -/
def pySplitlines (s : String) : List String := splitlinesAux s.data []

/-- Membership of a raw line in the in-memory dedup set of already parsed
lines (a Python set of strings tested with the in operator). -/
def memLine (line : String) : List String → Bool
  | [] => false
  | l :: ls => l == line || memLine line ls

/-! ### Datetime model (CPython datetime subset) -/

structure PyDateTime where
  year : Nat
  month : Nat
  day : Nat
  hour : Nat
  minute : Nat
  second : Nat
  microsecond : Nat
  utcOffsetMin : Option Int
deriving DecidableEq

def isLeapYear (y : Nat) : Bool :=
  y % 4 = 0 && (y % 100 ≠ 0 || y % 400 = 0)

def daysInMonth (y m : Nat) : Nat :=
  if m = 2 then (if isLeapYear y then 29 else 28)
  else if m = 4 || m = 6 || m = 9 || m = 11 then 30
  else 31

def digitVal (c : Char) : Option Nat :=
  if '0' ≤ c && c ≤ '9' then some (c.toNat - 48) else none

def takeDigitsAux : Nat → Nat → List Char → Option (Nat × List Char)
  | 0, acc, cs => some (acc, cs)
  | n + 1, acc, cs =>
    match cs with
    | [] => none
    | c :: rest =>
      match digitVal c with
      | some d => takeDigitsAux n (acc * 10 + d) rest
      | none => none

/-- Reads exactly n decimal digits and returns their value. -/
def takeNDigits (n : Nat) (cs : List Char) : Option (Nat × List Char) :=
  takeDigitsAux n 0 cs

/-- Reads one or two decimal digits the way a strptime field regular
expression does: a two-digit match is taken when its value satisfies ok2,
otherwise a single digit is taken when its value satisfies ok1. -/
def take2or1 (ok2 ok1 : Nat → Bool) (cs : List Char) : Option (Nat × List Char) :=
  match cs with
  | c1 :: c2 :: rest =>
    match digitVal c1, digitVal c2 with
    | some d1, some d2 =>
      if ok2 (d1 * 10 + d2) then some (d1 * 10 + d2, rest)
      else if ok1 d1 then some (d1, c2 :: rest) else none
    | some d1, none => if ok1 d1 then some (d1, c2 :: rest) else none
    | none, _ => none
  | [c1] =>
    match digitVal c1 with
    | some d1 => if ok1 d1 then some (d1, []) else none
    | none => none
  | [] => none

def expectChar (c : Char) : List Char → Option (List Char)
  | a :: rest => if a = c then some rest else none
  | [] => none

/-- Models CPython datetime.strptime with the fixed pattern year-month-day
space hour:minute:second: a four-digit year, then month, day, hour, minute
and second of one or two digits exactly as the strptime field regular
expressions allow, the whole input consumed, and the resulting fields
validated by the datetime constructor (day within the month, second below
60). The result is a naive datetime. -/
def strptimeYmdHms (s : String) : Option PyDateTime := do
  let cs := s.data
  let (y, cs) ← takeNDigits 4 cs
  let cs ← expectChar '-' cs
  let (mo, cs) ← take2or1 (fun v => 1 ≤ v && v ≤ 12) (fun v => 1 ≤ v && v ≤ 9) cs
  let cs ← expectChar '-' cs
  let (d, cs) ← take2or1 (fun v => 1 ≤ v && v ≤ 31) (fun v => 1 ≤ v && v ≤ 9) cs
  let cs ← expectChar ' ' cs
  let (h, cs) ← take2or1 (fun v => v ≤ 23) (fun _ => true) cs
  let cs ← expectChar ':' cs
  let (mi, cs) ← take2or1 (fun v => v ≤ 59) (fun _ => true) cs
  let cs ← expectChar ':' cs
  let (sec, cs) ← take2or1 (fun v => v ≤ 61) (fun _ => true) cs
  if cs = [] && 1 ≤ d && d ≤ daysInMonth y mo && sec ≤ 59 then
    some ⟨y, mo, d, h, mi, sec, 0, none⟩
  else none

def takeDigitsGreedy : List Char → Nat → Nat → Nat × Nat × List Char
  | [], acc, k => (acc, k, [])
  | c :: cs, acc, k =>
    match digitVal c with
    | some d => takeDigitsGreedy cs (acc * 10 + d) (k + 1)
    | none => (acc, k, c :: cs)

/-- One to six fractional-second digits after the decimal point, scaled to
microseconds. -/
def parseFrac (cs : List Char) : Option (Nat × List Char) :=
  let (v, k, rest) := takeDigitsGreedy cs 0 0
  if 1 ≤ k && k ≤ 6 then some (v * 10 ^ (6 - k), rest) else none

def parseOffHM (cs : List Char) : Option (Nat × List Char) := do
  let (oh, cs) ← takeNDigits 2 cs
  let cs ← expectChar ':' cs
  let (om, cs) ← takeNDigits 2 cs
  if oh ≤ 23 && om ≤ 59 then some (oh * 60 + om, cs) else none

def parseOptOffset (cs : List Char) : Option (Option Int × List Char) :=
  match cs with
  | [] => some (none, [])
  | '+' :: rest => (parseOffHM rest).map (fun p => (some (p.1 : Int), p.2))
  | '-' :: rest => (parseOffHM rest).map (fun p => (some (-(p.1 : Int)), p.2))
  | rest => some (none, rest)

def parseTimeRest (cs : List Char) : Option (Nat × Nat × Nat × List Char) :=
  match cs with
  | ':' :: rest => do
    let (mi, cs) ← takeNDigits 2 rest
    match cs with
    | ':' :: rest2 => do
      let (sec, cs) ← takeNDigits 2 rest2
      match cs with
      | '.' :: rest3 => do
        let (micro, cs) ← parseFrac rest3
        some (mi, sec, micro, cs)
      | _ => some (mi, sec, 0, cs)
    | _ => some (mi, 0, 0, cs)
  | _ => some (0, 0, 0, cs)

/-- Models CPython datetime.fromisoformat on the dashed subset this
repository exercises: a date YYYY-MM-DD, optionally followed by one
separator character and a time HH[:MM[:SS[.f up to six digits]]],
optionally followed by a UTC offset +HH:MM or -HH:MM. Dates are validated
against the calendar. Basic undashed forms, week dates, and offsets with
seconds are outside the modelled subset and are rejected. -/
def fromisoformat (s : String) : Option PyDateTime := do
  let cs := s.data
  let (y, cs) ← takeNDigits 4 cs
  let cs ← expectChar '-' cs
  let (mo, cs) ← takeNDigits 2 cs
  let cs ← expectChar '-' cs
  let (d, cs) ← takeNDigits 2 cs
  if 1 ≤ mo && mo ≤ 12 && 1 ≤ d && d ≤ daysInMonth y mo then
    match cs with
    | [] => some ⟨y, mo, d, 0, 0, 0, 0, none⟩
    | _sep :: cs => do
      let (h, cs) ← takeNDigits 2 cs
      let (mi, sec, micro, cs) ← parseTimeRest cs
      let (off, cs) ← parseOptOffset cs
      if cs = [] && h ≤ 23 && mi ≤ 59 && sec ≤ 59 then
        some ⟨y, mo, d, h, mi, sec, micro, off⟩
      else none
  else none

/-! ### Python float model -/

/-- Models Python float applied to a string: optional surrounding
whitespace, optional sign, then digits with an optional fractional part or
a fractional part alone, with an optional decimal exponent. The special
values inf and nan and underscore separators are outside the model. The
result is the exact rational value of the literal. -/
def pyFloat? (s : String) : Option ℚ :=
  let cs := pyStripList s.data
  let signed : Bool × List Char :=
    match cs with
    | '+' :: r => (false, r)
    | '-' :: r => (true, r)
    | r => (false, r)
  let neg := signed.1
  let (ip, ik, cs1) := takeDigitsGreedy signed.2 0 0
  let fracPart : Nat × Nat × List Char :=
    match cs1 with
    | '.' :: r => takeDigitsGreedy r 0 0
    | r => (0, 0, r)
  let fp := fracPart.1
  let fk := fracPart.2.1
  let cs2 := fracPart.2.2
  if ik = 0 && fk = 0 then none
  else
    let expPart : Bool × Int × List Char :=
      match cs2 with
      | 'e' :: r | 'E' :: r =>
        let es : Int × List Char :=
          match r with
          | '+' :: r2 => (1, r2)
          | '-' :: r2 => (-1, r2)
          | r2 => (1, r2)
        let (ev, ek, r3) := takeDigitsGreedy es.2 0 0
        if ek = 0 then (false, 0, r3) else (true, es.1 * (ev : Int), r3)
      | r => (true, 0, r)
    if expPart.1 = false then none
    else if expPart.2.2 ≠ [] then none
    else
      let e : Int := expPart.2.1
      let num : Int := ((ip * 10 ^ fk + fp : Nat) : Int)
      let scaled : Int × Nat :=
        if 0 ≤ e then (num * ((10 ^ e.toNat : Nat) : Int), 10 ^ fk)
        else (num, 10 ^ fk * 10 ^ (-e).toNat)
      some (mkRat (if neg then -scaled.1 else scaled.1) scaled.2)

/-! ### Event record parser (KillfeedParser.parse_csv_line) -/

/-- The dictionary returned by parse_csv_line, as a structure with the same
fields. Python floats are modelled as exact rationals. -/
structure KillData where
  timestamp : PyDateTime
  killer : String
  victim : String
  weapon : String
  distance : ℚ
  is_suicide : Bool
  raw_line : String
deriving DecidableEq

/-- The timestamp step of parse_csv_line: datetime.fromisoformat on the
input with every Z replaced by +00:00, falling back on ValueError to
datetime.strptime with the fixed pattern, whose naive result is then given
the UTC offset by the replace(tzinfo=timezone.utc) call. -/
def parseTimestamp (ts : String) : Option PyDateTime :=
  match fromisoformat (pyReplaceChar ts 'Z' "+00:00") with
  | some t => some t
  | none => (strptimeYmdHms ts).map (fun t => { t with utcOffsetMin := some 0 })

/-- Embeds KillfeedParser.parse_csv_line: strip the line, split on commas,
fail on fewer than five fields, parse the timestamp (fail when both formats
fail), normalize suicides, best-effort float parse of the distance. -/
def parse_csv_line (line : String) : Option KillData :=
  let parts := pySplitComma (pyStrip line)
  if parts.length < 5 then none
  else
    let timestamp_str := parts.getD 0 ""
    let killer := parts.getD 1 ""
    let victim := parts.getD 2 ""
    let weapon := parts.getD 3 ""
    let distance := parts.getD 4 ""
    match parseTimestamp timestamp_str with
    | none => none
    | some ts =>
      let is_suicide := killer == victim || pyStartsWith (pyLower weapon) "suicide"
      let weapon1 :=
        if is_suicide then
          if pyContains (pyLower weapon) "relocation" then "Menu Suicide"
          else if pyLower weapon == "suicide_by_relocation" then "Menu Suicide"
          else "Suicide"
        else weapon
      let distance_float : ℚ :=
        if distance ≠ "" ∧ distance ≠ "N/A" then
          match pyFloat? distance with
          | some q => q
          | none => 0
        else 0
      some ⟨ts, killer, victim, weapon1, distance_float, is_suicide, pyStrip line⟩

/-! ### Document store (DatabaseManager over MongoDB)

The pvp_data collection holds one document per (guild_id, server_id,
player_name); documents are association lists from field names to values,
because update_pvp_stats passes arbitrary dictionaries into the update. -/

inductive Value where
  | VInt : Int → Value
  | VRat : ℚ → Value
  | VStr : String → Value
  | VBool : Bool → Value
  | VTime : Nat → Value
  | VNull : Value
  | VDoc : List (String × Value) → Value

abbrev Doc := List (String × Value)

def lookupDoc : Doc → String → Option Value
  | [], _ => none
  | (k1, v) :: d, k => if k1 == k then some v else lookupDoc d k

def hasKeyDoc (d : Doc) (k : String) : Bool := (lookupDoc d k).isSome

/-- Python dict assignment: replace the value of an existing key, else
append the new key at the end. -/
def setKeyDoc : Doc → String → Value → Doc
  | [], k, v => [(k, v)]
  | (k1, v1) :: d, k, v =>
    if k1 == k then (k, v) :: d else (k1, v1) :: setKeyDoc d k v

def keysDoc (d : Doc) : List String := d.map (fun kv => kv.1)

/-- The (guild_id, server_id) equality filter used on server-scoped
collections. -/
def docGuildServer (d : Doc) (g : Int) (s : String) : Bool :=
  (match lookupDoc d "guild_id" with
   | some (Value.VInt x) => x == g
   | _ => false) &&
  (match lookupDoc d "server_id" with
   | some (Value.VStr x) => x == s
   | _ => false)

/-- The (guild_id, server_id, player_name) equality filter of pvp_data. -/
def pvpMatches (d : Doc) (g : Int) (s p : String) : Bool :=
  docGuildServer d g s &&
  (match lookupDoc d "player_name" with
   | some (Value.VStr x) => x == p
   | _ => false)

def applySet (d : Doc) (upd : Doc) : Doc :=
  upd.foldl (fun acc kv => setKeyDoc acc kv.1 kv.2) d

def updateMatchingPvp (g : Int) (s p : String) (set1 : Doc) : List Doc → List Doc
  | [] => []
  | d :: ds =>
    if pvpMatches d g s p then applySet d set1 :: ds
    else d :: updateMatchingPvp g s p set1 ds

/-- Models the MongoDB update_one call issued by update_pvp_stats, with the
update document made of a setOnInsert operator and a set operator and with
upsert enabled. MongoDB statically rejects an update document in which two
update operators modify the same field path (server error 40,
ConflictingUpdateOperators, raised even when the setOnInsert operator would
not apply because no insert happens), and rejects dollar-prefixed field
names inside an update operator as not valid for storage; either rejection
makes the whole call raise. On success, a matching document receives the
set fields; otherwise a new document is inserted built from the filter
equality fields, then the setOnInsert fields, then the set fields. -/
def updateOnePvp (docs : List Doc) (g : Int) (s p : String)
    (soi set1 : Doc) : Except Unit (List Doc) :=
  if (keysDoc soi).any (fun k => hasKeyDoc set1 k) then Except.error ()
  else if (keysDoc set1).any (fun k => pyStartsWith k "$") ||
          (keysDoc soi).any (fun k => pyStartsWith k "$") then Except.error ()
  else if docs.any (fun d => pvpMatches d g s p) then
    Except.ok (updateMatchingPvp g s p set1 docs)
  else
    Except.ok (docs ++
      [applySet (applySet
        [("guild_id", Value.VInt g), ("server_id", Value.VStr s),
         ("player_name", Value.VStr p)] soi) set1])

/-- A kill-event log entry written by add_kill_event: the insertion merges
guild_id, server_id and an insertion timestamp with the parsed kill data,
whose own timestamp field overrides the insertion timestamp. -/
structure KillEventRec where
  guild_id : Int
  server_id : String
  data : KillData
deriving DecidableEq

/-- The external document store state. insertOutcomes is the oracle for the
outcomes of successive insert_one calls on the kill_events collection (an
insert against a lost connection raises inside the store client); an
exhausted oracle means every further insert succeeds. -/
structure DbState where
  pvp_data : List Doc
  kill_events : List KillEventRec
  insertOutcomes : List Bool

def takeOutcome : List Bool → Bool × List Bool
  | [] => (true, [])
  | b :: r => (b, r)

/-- Embeds DatabaseManager.add_kill_event: insert_one on kill_events; any
store failure is caught, logged and turned into a False result with the
collection unchanged. -/
def add_kill_event (g : Int) (s : String) (kd : KillData) (db : DbState) :
    Bool × DbState :=
  let (ok, rest) := takeOutcome db.insertOutcomes
  if ok then
    (true, { db with kill_events := db.kill_events ++ [⟨g, s, kd⟩],
                     insertOutcomes := rest })
  else (false, { db with insertOutcomes := rest })

def valueAsRat? : Value → Option ℚ
  | Value.VInt n => some (n : ℚ)
  | Value.VRat q => some q
  | _ => none

/-- The body of DatabaseManager.update_pvp_stats up to and including the
update_one call; a raised error anywhere in it is caught by the enclosing
handler. The KDR recompute fires only when kills or deaths is a top-level
key of the stats_update dictionary; the value read from the current
document raises KeyError when the field is missing and TypeError when it is
not numeric. The update document puts default_stats under setOnInsert and
stats_update (with last_updated added) under set. -/
def updatePvpBody (now : Nat) (g : Int) (s player : String)
    (stats_update : Doc) (db : DbState) : Except Unit (List Doc) := do
  let default_stats : Doc :=
    [("guild_id", Value.VInt g), ("server_id", Value.VStr s),
     ("player_name", Value.VStr player),
     ("kills", Value.VInt 0), ("deaths", Value.VInt 0),
     ("suicides", Value.VInt 0), ("kdr", Value.VRat 0),
     ("longest_streak", Value.VInt 0), ("current_streak", Value.VInt 0),
     ("favorite_weapon", Value.VNull), ("total_distance", Value.VRat 0),
     ("last_updated", Value.VTime now)]
  let upd ←
    if hasKeyDoc stats_update "kills" || hasKeyDoc stats_update "deaths" then do
      let current_doc := db.pvp_data.find? (fun d => pvpMatches d g s player)
      let killsV ←
        match lookupDoc stats_update "kills" with
        | some v => pure v
        | none =>
          match current_doc with
          | some d =>
            match lookupDoc d "kills" with
            | some v => pure v
            | none => throw ()
          | none => pure (Value.VInt 0)
      let deathsV ←
        match lookupDoc stats_update "deaths" with
        | some v => pure v
        | none =>
          match current_doc with
          | some d =>
            match lookupDoc d "deaths" with
            | some v => pure v
            | none => throw ()
          | none => pure (Value.VInt 0)
      let k ← match valueAsRat? killsV with
        | some q => pure q
        | none => throw ()
      let dth ← match valueAsRat? deathsV with
        | some q => pure q
        | none => throw ()
      pure (setKeyDoc stats_update "kdr" (Value.VRat (k / max dth 1)))
    else pure stats_update
  let upd := setKeyDoc upd "last_updated" (Value.VTime now)
  updateOnePvp db.pvp_data g s player default_stats upd

/-- Embeds DatabaseManager.update_pvp_stats: the body above inside the
try block; every failure is caught, logged, and returns False with the
store unchanged. -/
def update_pvp_stats (now : Nat) (g : Int) (s player : String)
    (stats_update : Doc) (db : DbState) : Bool × DbState :=
  match updatePvpBody now g s player stats_update db with
  | Except.ok docs => (true, { db with pvp_data := docs })
  | Except.error _ => (false, db)

/-- The stats_update dictionary the parsers pass for one incremented
counter: the MongoDB increment operator document. -/
def incUpdate (fld : String) : Doc :=
  [("$inc", Value.VDoc [(fld, Value.VInt 1)])]

/-! ### Stats aggregation per event (KillfeedParser.process_kill_event) -/

/-- Embeds KillfeedParser.process_kill_event: add the event to the kill
event log, then update the pvp counters (suicide: the victim suicides
counter; otherwise the killer kills counter and the victim deaths
counter), then send the killfeed embed (external I/O with no store
effect). The enclosing try/except swallows every failure, so the call
always returns normally. -/
def process_kill_event (now : Nat) (g : Int) (s : String) (kd : KillData)
    (db : DbState) : DbState :=
  let r1 := add_kill_event g s kd db
  let db1 := r1.2
  if kd.is_suicide then
    (update_pvp_stats now g s kd.victim (incUpdate "suicides") db1).2
  else
    let db2 := (update_pvp_stats now g s kd.killer (incUpdate "kills") db1).2
    (update_pvp_stats now g s kd.victim (incUpdate "deaths") db2).2

/-! ### Incremental orchestrator (KillfeedParser.parse_server_killfeed) -/

/-- The mutable state the incremental pass threads: the dedup set of
already parsed raw lines for the one (guild, server) key under study, and
the document store. -/
structure IncState where
  parsedLines : List String
  db : DbState

/-- The observable outcome of one incremental pass: how many lines were
handed to parse_csv_line, which parsed events were handed to
process_kill_event, and the final state. -/
structure LoopResult where
  parseAttempts : Nat
  applied : List KillData
  state : IncState

/-- Embeds the line loop of parse_server_killfeed: skip a line when its
strip is empty or when the raw line is already in the dedup set (both
checked before parsing); otherwise parse it; on parse failure the line is
skipped and not marked; on success process_kill_event runs and then the
raw line is added to the dedup set. -/
def killfeedLoop (now : Nat) (g : Int) (s : String) :
    List String → IncState → LoopResult
  | [], st => ⟨0, [], st⟩
  | line :: rest, st =>
    if pyStrip line = "" ∨ memLine line st.parsedLines then
      killfeedLoop now g s rest st
    else
      match parse_csv_line line with
      | none =>
        let r := killfeedLoop now g s rest st
        ⟨r.parseAttempts + 1, r.applied, r.state⟩
      | some kd =>
        let db1 := process_kill_event now g s kd st.db
        let st1 : IncState := ⟨st.parsedLines ++ [line], db1⟩
        let r := killfeedLoop now g s rest st1
        ⟨r.parseAttempts + 1, kd :: r.applied, r.state⟩

/-- Embeds parse_server_killfeed once the transport has produced the raw
lines: an empty fetch is a logged no-op, otherwise the line loop runs. -/
def parse_server_killfeed (now : Nat) (g : Int) (s : String)
    (lines : List String) (st : IncState) : LoopResult :=
  if lines.isEmpty then ⟨0, [], st⟩
  else killfeedLoop now g s lines st

/-! ### Historical orchestrator (HistoricalParser) -/

/-- The refresh guard map active_refreshes, keyed by the guild_serverId
string, plus the document store. -/
structure HistState where
  active_refreshes : List (String × Bool)
  db : DbState

def refreshKey (g : Int) (s : String) : String := toString g ++ "_" ++ s

/-- Python dict get with default False. -/
def lookupFlag (m : List (String × Bool)) (k : String) : Bool :=
  match m with
  | [] => false
  | (k1, b) :: rest => if k1 == k then b else lookupFlag rest k

/-- Python dict assignment on the guard map. -/
def setFlag (m : List (String × Bool)) (k : String) (b : Bool) :
    List (String × Bool) :=
  match m with
  | [] => [(k, b)]
  | (k1, b1) :: rest =>
    if k1 == k then (k, b) :: rest else (k1, b1) :: setFlag rest k b

/-- Embeds HistoricalParser.clear_server_data: delete_many on pvp_data and
on kill_events with the (guild_id, server_id) filter. -/
def clear_server_data (g : Int) (s : String) (db : DbState) : DbState :=
  { db with
    pvp_data := db.pvp_data.filter (fun d => !docGuildServer d g s),
    kill_events := db.kill_events.filter
      (fun e => !(e.guild_id == g && e.server_id == s)) }

/-- Embeds the line loop of refresh_server_data: skip blank lines, parse
(skip silently on failure), and on success add the kill event and issue the
counter updates directly, bypassing the dedup tracker; the second argument
of the result is processed_count. -/
def histLoop (now : Nat) (g : Int) (s : String) :
    List String → DbState → Nat → DbState × Nat
  | [], db, n => (db, n)
  | line :: rest, db, n =>
    if pyStrip line = "" then histLoop now g s rest db n
    else
      match parse_csv_line line with
      | none => histLoop now g s rest db n
      | some kd =>
        let db1 := (add_kill_event g s kd db).2
        let db2 :=
          if !kd.is_suicide then
            (update_pvp_stats now g s kd.killer (incUpdate "kills") db1).2
          else db1
        let db3 := (update_pvp_stats now g s kd.victim
          (incUpdate (if !kd.is_suicide then "deaths" else "suicides")) db2).2
        histLoop now g s rest db3 (n + 1)

/-- Embeds HistoricalParser.refresh_server_data with the lines produced by
the fetch supplied as a parameter (the fetch happens after the clear and
does not read the store). Steps, in source order: reject immediately when
the guard for this key is set; set the guard; send the starting embed
(external); clear the server data; fetch; on an empty fetch release the
guard and return failure; otherwise run the line loop with periodic
progress embeds (external); release the guard and return success. -/
def refresh_server_data (now : Nat) (g : Int) (s : String)
    (lines : List String) (st : HistState) : Bool × HistState :=
  let key := refreshKey g s
  if lookupFlag st.active_refreshes key then (false, st)
  else
    let guards1 := setFlag st.active_refreshes key true
    let db1 := clear_server_data g s st.db
    if lines.isEmpty then
      (false, ⟨setFlag guards1 key false, db1⟩)
    else
      let r := histLoop now g s lines db1 0
      (true, ⟨setFlag guards1 key false, r.1⟩)

/-! ### Remote source adapter (SFTP) -/

/-- The per-server connection configuration read from server_config. -/
structure SftpConfig where
  sftp_host : Option String
  sftp_port : Nat
  sftp_username : Option String
  sftp_password : Option String
  server_id : String

/-- Python truthiness of an optional credential string: absent and empty
are both falsy under the all([...]) check. -/
def credTruthy : Option String → Bool
  | none => false
  | some s => s ≠ ""

def credsOk (cfg : SftpConfig) : Bool :=
  credTruthy cfg.sftp_host && credTruthy cfg.sftp_username &&
  credTruthy cfg.sftp_password

/-- The outcome of listing the remote deathlogs directory. -/
inductive Listing where
  | notFound : Listing
  | failure : Listing
  | ok : List (String × Nat) → Listing

/-- One transport condition: whether the SSH connect succeeds, the listing
outcome (file name and st_mtime pairs), and the per-file read outcome
(none models a raised read error). -/
structure Transport where
  connectOk : Bool
  listing : Listing
  readFile : String → Option String

def remotePath (cfg : SftpConfig) : String :=
  "./" ++ cfg.sftp_host.getD "" ++ "_" ++ cfg.server_id ++ "/actual1/deathlogs/"

def endsWithCsv (name : String) : Bool := ".csv".data.isSuffixOf name.data

/-- The first file among those with the maximal st_mtime, as produced by a
stable descending sort on st_mtime followed by taking the head. -/
def mostRecent (c : String × Nat) (rest : List (String × Nat)) :
    String × Nat :=
  rest.foldl (fun best it => if best.2 < it.2 then it else best) c

/-- The try-block of KillfeedParser.get_sftp_csv_files: the Except error
marks the points where the Python code raises past the inner handlers. -/
def kfFetchBody (cfg : SftpConfig) (t : Transport) :
    Except Unit (List String) :=
  if ¬credsOk cfg then Except.ok []
  else if ¬t.connectOk then Except.error ()
  else
    match t.listing with
    | Listing.notFound => Except.ok []
    | Listing.failure => Except.error ()
    | Listing.ok items =>
      match items.filter (fun it => endsWithCsv it.1) with
      | [] => Except.ok []
      | c :: rest =>
        let chosen := mostRecent c rest
        match t.readFile (remotePath cfg ++ "/" ++ chosen.1) with
        | some content => Except.ok (pySplitlines content)
        | none => Except.error ()

/-- Embeds KillfeedParser.get_sftp_csv_files: the whole body runs inside a
try/except that catches every failure, logs it, and returns an empty list,
so the call never raises to the caller. -/
def kfFetch (cfg : SftpConfig) (t : Transport) : List String :=
  match kfFetchBody cfg t with
  | Except.ok l => l
  | Except.error _ => []

/-- Stable insertion into a list sorted ascending by st_mtime. -/
def insertByMtime (x : String × Nat) : List (String × Nat) →
    List (String × Nat)
  | [] => [x]
  | y :: ys => if x.2 < y.2 then x :: y :: ys else y :: insertByMtime x ys

/-- The stable ascending sort on st_mtime of the historical fetch. -/
def sortByMtime : List (String × Nat) → List (String × Nat)
  | [] => []
  | x :: xs => insertByMtime x (sortByMtime xs)

def readAllFiles (cfg : SftpConfig) (t : Transport) :
    List (String × Nat) → List String → Except Unit (List String)
  | [], acc => Except.ok acc
  | f :: rest, acc =>
    match t.readFile (remotePath cfg ++ "/" ++ f.1) with
    | some content => readAllFiles cfg t rest (acc ++ pySplitlines content)
    | none => Except.error ()

/-- The try-block of HistoricalParser.get_sftp_csv_files: the environment
variable fallbacks are modelled as unset, so the per-server configuration
is used; a missing directory is caught inside and yields the lines
accumulated so far (none); a per-file read failure raises past the inner
handler. -/
def histFetchBody (cfg : SftpConfig) (t : Transport) :
    Except Unit (List String) :=
  if ¬credsOk cfg then Except.ok []
  else if ¬t.connectOk then Except.error ()
  else
    match t.listing with
    | Listing.notFound => Except.ok []
    | Listing.failure => Except.error ()
    | Listing.ok items =>
      let csvs := sortByMtime (items.filter (fun it => endsWithCsv it.1))
      readAllFiles cfg t csvs []

/-- Embeds HistoricalParser.get_sftp_csv_files with its outer try/except:
every failure degrades to an empty list, never a raised error. -/
def histFetch (cfg : SftpConfig) (t : Transport) : List String :=
  match histFetchBody cfg t with
  | Except.ok l => l
  | Except.error _ => []

/-! ### Concrete fixtures used by the theorems -/

/-- The empty document store with every insert succeeding. -/
def db0 : DbState := ⟨[], [], []⟩

/-- A raw PvP kill line from the specification. -/
def akLine : String := "2024-01-01T00:00:00Z,Alice,Bob,AK74,150.5"

/-- The event parse_csv_line produces for akLine. -/
def evAK : KillData :=
  ⟨⟨2024, 1, 1, 0, 0, 0, 0, some 0⟩, "Alice", "Bob", "AK74",
   mkRat 301 2, false, akLine⟩

/-- The menu-suicide line from the specification. -/
def carlLine : String := "2024-01-01T00:00:00Z,Carl,Carl,Suicide_by_relocation,N/A"

/-- The event parse_csv_line produces for carlLine. -/
def evCarl : KillData :=
  ⟨⟨2024, 1, 1, 0, 0, 0, 0, some 0⟩, "Carl", "Carl", "Menu Suicide",
   0, true, carlLine⟩

/-- A five-field line whose timestamp neither format accepts. -/
def badLine : String := "bad,a,b,w,1"

/-- A line with an unparseable distance field. -/
def naLine : String := "2024-01-01T00:00:00Z,Ann,Ben,MP5,N/A"

/-- The event parse_csv_line produces for naLine. -/
def evNA : KillData :=
  ⟨⟨2024, 1, 1, 0, 0, 0, 0, some 0⟩, "Ann", "Ben", "MP5", 0, false, naLine⟩

/-- A pre-existing player stat record for guild 7, server s1. -/
def oldDoc : Doc :=
  [("guild_id", Value.VInt 7), ("server_id", Value.VStr "s1"),
   ("player_name", Value.VStr "Old"), ("kills", Value.VInt 7),
   ("deaths", Value.VInt 2), ("suicides", Value.VInt 0),
   ("kdr", Value.VRat 0)]

/-- A pre-existing kill-event log entry for guild 7, server s1. -/
def oldEv : KillEventRec :=
  ⟨7, "s1", ⟨⟨2023, 1, 1, 0, 0, 0, 0, none⟩, "X", "Y", "M4", 0, false, "old"⟩⟩

/-- A store holding the pre-existing record and log entry. -/
def dbOld : DbState := ⟨[oldDoc], [oldEv], []⟩

/-- A transport whose configuration is missing the host credential. -/
def cfgNoCred : SftpConfig := ⟨none, 22, some "u", some "p", "s1"⟩

/-- A complete transport configuration. -/
def cfgOk : SftpConfig := ⟨some "h", 22, some "u", some "p", "s1"⟩

/-- A transport in which every per-file read raises. -/
def tReadFail : Transport := ⟨true, Listing.ok [("a.csv", 5)], fun _ => none⟩

/-! ### Helper lemmas -/

/-- Every counter update the parsers issue passes the MongoDB increment
operator document as stats_update; update_pvp_stats then places
last_updated both in the setOnInsert defaults and in the set document, so
the update_one call is rejected by the store and the catch turns the call
into a no-op returning False, whatever the current store contents. -/
theorem update_pvp_stats_inc_noop (now : Nat) (g : Int) (s p fld : String)
    (db : DbState) :
    update_pvp_stats now g s p (incUpdate fld) db = (false, db) := rfl

theorem process_kill_event_ok (now : Nat) (g : Int) (s : String)
    (kd : KillData) (pv : List Doc) (ke : List KillEventRec) :
    process_kill_event now g s kd ⟨pv, ke, []⟩ =
      ⟨pv, ke ++ [⟨g, s, kd⟩], []⟩ := by
  cases h : kd.is_suicide <;>
    simp [process_kill_event, add_kill_event, takeOutcome, h,
      update_pvp_stats_inc_noop]

theorem process_kill_event_insert_fails (now : Nat) (g : Int) (s : String)
    (kd : KillData) (pv : List Doc) (ke : List KillEventRec)
    (rest : List Bool) :
    process_kill_event now g s kd ⟨pv, ke, false :: rest⟩ =
      ⟨pv, ke, rest⟩ := by
  cases h : kd.is_suicide <;>
    simp [process_kill_event, add_kill_event, takeOutcome, h,
      update_pvp_stats_inc_noop]

theorem memLine_append_self (l : String) (xs : List String) :
    memLine l (xs ++ [l]) = true := by
  induction xs with
  | nil => simp [memLine]
  | cons x xs ih => simp [memLine, ih]

theorem memLine_append_left (l : String) (xs ys : List String)
    (h : memLine l xs = true) : memLine l (xs ++ ys) = true := by
  induction xs with
  | nil => simp [memLine] at h
  | cons x xs ih =>
    simp [memLine] at h ⊢
    rcases h with h | h
    · exact Or.inl h
    · exact Or.inr (by simpa [memLine] using ih (by simpa [memLine] using h))

/-- The dedup set only grows during an incremental pass. -/
theorem killfeedLoop_mem_mono (now : Nat) (g : Int) (s : String)
    (l : String) (lines : List String) (st : IncState)
    (h : memLine l st.parsedLines = true) :
    memLine l (killfeedLoop now g s lines st).state.parsedLines = true := by
  induction lines generalizing st with
  | nil => simpa [killfeedLoop]
  | cons line rest ih =>
    by_cases hskip : pyStrip line = "" ∨ memLine line st.parsedLines = true
    · rw [killfeedLoop, if_pos hskip]
      exact ih st h
    · rw [killfeedLoop, if_neg hskip]
      cases hp : parse_csv_line line with
      | none => exact ih st h
      | some kd =>
        exact ih ⟨st.parsedLines ++ [line], _⟩
          (memLine_append_left l st.parsedLines [line] h)

/-- A run whose input is one line already in the dedup set parses nothing,
applies nothing and leaves the state unchanged. -/
theorem killfeed_single_seen (now : Nat) (g : Int) (s : String)
    (l : String) (st : IncState) (h : memLine l st.parsedLines = true) :
    parse_server_killfeed now g s [l] st = ⟨0, [], st⟩ := by
  rw [parse_server_killfeed, if_neg (by simp), killfeedLoop,
    if_pos (Or.inr h), killfeedLoop]

/-! ### Claim theorems -/

/-- C1: the claim that every applyEvent call that changes kills or deaths
recomputes kdr = kills / max(deaths, 1) does not describe the code. The
kdr recompute in update_pvp_stats is guarded by a test for kills or deaths
as top-level keys of stats_update, but every caller passes the increment
operator document whose only top-level key is the dollar-inc operator, so
the guard never fires; moreover the issued update_one is rejected by the
store (last_updated appears in both the setOnInsert and the set operator),
so the call returns False and the record never changes at all. Evaluated
here at the kills increment the killfeed parser issues for a killer. -/
theorem c1_kdr_recompute_never_fires :
    hasKeyDoc (incUpdate "kills") "kills" = false ∧
    hasKeyDoc (incUpdate "kills") "deaths" = false ∧
    update_pvp_stats 0 7 "s1" "Alice" (incUpdate "kills") db0 = (false, db0) ∧
    update_pvp_stats 0 7 "s1" "Alice" (incUpdate "kills") dbOld =
      (false, dbOld) :=
  ⟨rfl, rfl, rfl, rfl⟩

/-- C2: the claimed counter effects of applyEvent do not happen. For the
concrete PvP kill event parsed from akLine, process_kill_event appends the
event to the kill-event log but creates no player stat record and
increments no counter: both update_pvp_stats calls are rejected by the
store and caught, so the pvp_data collection stays empty instead of
holding records with kills = 1 and deaths = 1. -/
theorem c2_counters_never_incremented :
    parse_csv_line akLine = some evAK ∧
    evAK.is_suicide = false ∧
    (process_kill_event 0 7 "s1" evAK db0).pvp_data = [] ∧
    (process_kill_event 0 7 "s1" evAK db0).kill_events = [⟨7, "s1", evAK⟩] :=
  ⟨by decide, rfl, rfl, rfl⟩

/-- A weapon string that does not contain relocation cannot be the exact
suicide-by-relocation token, so the dead elif branch of the normalization
never changes the result. -/
theorem not_relocation_ne_sbr (s : String)
    (h : pyContains s "relocation" = false) :
    (s == "suicide_by_relocation") = false := by
  cases hb : s == "suicide_by_relocation" with
  | false => rfl
  | true =>
    have heq : s = "suicide_by_relocation" := eq_of_beq hb
    rw [heq] at h
    exact absurd h (by decide)

/-- C3 counterexample: a five-field line whose timestamp neither format
accepts makes parse return a failure rather than an event, so the claim
quantified over every line with at least five fields fails. -/
theorem c3_counterexample_five_fields_no_event :
    parse_csv_line "bad,Carl,Carl,Suicide_by_relocation,N/A" = none ∧
    (pySplitComma (pyStrip "bad,Carl,Carl,Suicide_by_relocation,N/A")).length = 5 := by
  exact ⟨by decide, by decide⟩

/-- C3 amended: for every raw line with at least five fields whose
timestamp one of the two formats accepts (equivalently, on which parse
succeeds), the returned event has isSuicide equal to killer equals victim
or the lowercased weapon starting with suicide; a suicide weapon is
rewritten to the menu-suicide marker exactly when its lowercased form
contains relocation and to the generic suicide marker otherwise; a
non-suicide weapon passes through unchanged; and the Carl line from the
specification yields the menu-suicide marker with distance zero. -/
theorem c3_suicide_normalization :
    (∀ line kd, parse_csv_line line = some kd →
      (kd.is_suicide =
        ((pySplitComma (pyStrip line)).getD 1 "" ==
            (pySplitComma (pyStrip line)).getD 2 "" ||
          pyStartsWith (pyLower ((pySplitComma (pyStrip line)).getD 3 ""))
            "suicide")) ∧
      (kd.is_suicide = true →
        kd.weapon =
          (if pyContains (pyLower ((pySplitComma (pyStrip line)).getD 3 ""))
              "relocation" then "Menu Suicide" else "Suicide")) ∧
      (kd.is_suicide = false →
        kd.weapon = (pySplitComma (pyStrip line)).getD 3 "")) ∧
    parse_csv_line carlLine = some evCarl := by
  constructor
  · intro line kd h
    simp only [parse_csv_line] at h
    by_cases h5 : (pySplitComma (pyStrip line)).length < 5
    · rw [if_pos h5] at h
      exact absurd h (by simp)
    · rw [if_neg h5] at h
      cases hts : parseTimestamp ((pySplitComma (pyStrip line)).getD 0 "") with
      | none => rw [hts] at h; exact absurd h (by simp)
      | some ts =>
        rw [hts] at h
        injection h with h
        subst h
        refine ⟨rfl, ?_, ?_⟩ <;> dsimp only <;> intro hs
        · rw [if_pos hs]
          by_cases hc : pyContains
              (pyLower ((pySplitComma (pyStrip line)).getD 3 ""))
              "relocation" = true
          · rw [if_pos hc, if_pos hc]
          · have hcf : pyContains
                (pyLower ((pySplitComma (pyStrip line)).getD 3 ""))
                "relocation" = false := by simpa using hc
            rw [if_neg hc, if_neg hc,
              if_neg (by rw [not_relocation_ne_sbr _ hcf]; simp)]
        · rw [if_neg (by rw [hs]; simp)]
  · decide

/-- C3 witness: the amended theorem applied at the Carl line. -/
theorem c3_suicide_normalization_witness :
    evCarl.is_suicide = true ∧ evCarl.weapon = "Menu Suicide" := by
  have h := c3_suicide_normalization
  have h1 := (h.1 carlLine evCarl h.2).2.1 rfl
  rw [h1]
  exact ⟨rfl, by decide⟩

/-- C4 counterexample: a non-blank five-field line whose timestamp fails to
parse is never marked seen, so its second occurrence is parsed again (one
parse attempt, not skipped by the alreadySeen check before parsing) and the
two occurrences together apply zero counter updates, not exactly one. -/
theorem c4_counterexample_unparsed_line_reprocessed :
    (parse_server_killfeed 0 7 "s1" [badLine] ⟨[], db0⟩).applied = [] ∧
    (parse_server_killfeed 0 7 "s1" [badLine]
      (parse_server_killfeed 0 7 "s1" [badLine] ⟨[], db0⟩).state).applied = [] ∧
    (parse_server_killfeed 0 7 "s1" [badLine]
      (parse_server_killfeed 0 7 "s1" [badLine] ⟨[], db0⟩).state).parseAttempts
      = 1 :=
  ⟨rfl, rfl, rfl⟩

/-- C4 amended: for every non-blank raw line that parses successfully and
is not yet in the dedup set, processing it twice through incremental mode
against the same dedup map instance hands the event to the stats-update
step exactly once; the second pass performs no parse attempt (the line is
skipped by the alreadySeen check before parsing) and changes nothing.
Blank lines and lines that fail to parse are outside this guarantee: they
are never marked seen, and a failing line is re-parsed on every
occurrence, applying no update at all. -/
theorem c4_dedup_idempotent (now : Nat) (g : Int) (s line : String)
    (kd : KillData) (S : List String) (db : DbState)
    (hb : ¬ pyStrip line = "") (hm : memLine line S = false)
    (hp : parse_csv_line line = some kd) :
    (parse_server_killfeed now g s [line] ⟨S, db⟩).parseAttempts = 1 ∧
    (parse_server_killfeed now g s [line] ⟨S, db⟩).applied = [kd] ∧
    parse_server_killfeed now g s [line]
        (parse_server_killfeed now g s [line] ⟨S, db⟩).state =
      ⟨0, [], (parse_server_killfeed now g s [line] ⟨S, db⟩).state⟩ := by
  have hne : ¬(pyStrip line = "" ∨
      memLine line (⟨S, db⟩ : IncState).parsedLines = true) := by
    push_neg
    exact ⟨hb, by simp [hm]⟩
  have e1 : parse_server_killfeed now g s [line] ⟨S, db⟩ =
      ⟨1, [kd], ⟨S ++ [line], process_kill_event now g s kd db⟩⟩ := by
    rw [parse_server_killfeed, if_neg (by simp), killfeedLoop, if_neg hne, hp]
    rfl
  refine ⟨by rw [e1], by rw [e1], ?_⟩
  rw [e1]
  exact killfeed_single_seen now g s line _ (memLine_append_self line S)

/-- C4 witness: the amended theorem applied to the concrete PvP line with
an empty dedup set. -/
theorem c4_dedup_idempotent_witness :
    (parse_server_killfeed 0 7 "s1" [akLine] ⟨[], db0⟩).applied = [evAK] ∧
    parse_server_killfeed 0 7 "s1" [akLine]
        (parse_server_killfeed 0 7 "s1" [akLine] ⟨[], db0⟩).state =
      ⟨0, [], (parse_server_killfeed 0 7 "s1" [akLine] ⟨[], db0⟩).state⟩ := by
  have h := c4_dedup_idempotent 0 7 "s1" akLine evAK [] db0
    (by decide) rfl (by decide)
  exact ⟨h.2.1, h.2.2⟩

/-- C5: while a historical refresh is marked running for a (guild, server)
key, a second refresh_server_data call for the same key returns failure
immediately with the state unchanged: nothing is queued, no data is
cleared, and the in-progress run, whose result depends only on its own
inputs, is unaffected. -/
theorem c5_reentrancy_guard_rejects (now : Nat) (g : Int) (s : String)
    (lines : List String) (st : HistState)
    (h : lookupFlag st.active_refreshes (refreshKey g s) = true) :
    refresh_server_data now g s lines st = (false, st) := by
  rw [refresh_server_data, if_pos h]

/-- C5 witness: a concrete state with the guard set. -/
theorem c5_reentrancy_guard_rejects_witness :
    refresh_server_data 0 7 "s1" [akLine]
        ⟨[(refreshKey 7 "s1", true)], dbOld⟩ =
      (false, ⟨[(refreshKey 7 "s1", true)], dbOld⟩) :=
  c5_reentrancy_guard_rejects 0 7 "s1" [akLine]
    ⟨[(refreshKey 7 "s1", true)], dbOld⟩ rfl

theorem lookupFlag_setFlag (m : List (String × Bool)) (k : String) (b : Bool) :
    lookupFlag (setFlag m k b) k = b := by
  induction m with
  | nil => simp [setFlag, lookupFlag]
  | cons kv rest ih =>
    obtain ⟨k1, b1⟩ := kv
    by_cases hk : (k1 == k) = true
    · simp [setFlag, lookupFlag, hk]
    · simp only [setFlag, lookupFlag, hk, if_false, Bool.false_eq_true]
      exact ih

theorem filter_not_filter {α : Type} (p : α → Bool) (l : List α) :
    (l.filter (fun x => !p x)).filter p = [] := by
  induction l with
  | nil => rfl
  | cons x xs ih =>
    by_cases hx : p x = true
    · rw [List.filter_cons_of_neg (by simp [hx])]
      exact ih
    · rw [List.filter_cons_of_pos (by simp [hx]),
        List.filter_cons_of_neg (by simp [hx])]
      exact ih

/-- C6: the claimed rebuild does not happen. Starting from a state holding
one pre-existing stat record and one pre-existing kill-event entry for
guild 7 server s1, a historical refresh over one valid PvP line (N = 1
with a distinct killer) succeeds and does clear the old records, but
leaves zero PlayerStatRecords instead of the claimed records with kills
one and deaths one: every update_pvp_stats call the rebuild loop issues is
rejected by the store and caught. The kill-event log is rebuilt from the
fetched line alone. -/
theorem c6_historical_rebuild_missing_stats :
    (refresh_server_data 0 7 "s1" [akLine] ⟨[], dbOld⟩).1 = true ∧
    (refresh_server_data 0 7 "s1" [akLine] ⟨[], dbOld⟩).2.db.pvp_data = [] ∧
    (refresh_server_data 0 7 "s1" [akLine] ⟨[], dbOld⟩).2.db.kill_events =
      [⟨7, "s1", evAK⟩] ∧
    lookupFlag
      (refresh_server_data 0 7 "s1" [akLine] ⟨[], dbOld⟩).2.active_refreshes
      (refreshKey 7 "s1") = false :=
  ⟨rfl, rfl, rfl, rfl⟩

/-- C7: a historical refresh whose fetch returns zero lines fails, releases
the guard (a subsequent refresh for the same key passes the guard check and
runs), and, because the clear step precedes the emptiness check, leaves
the server with no PlayerStatRecords and no kill-event entries. -/
theorem c7_empty_fetch_fails_guard_released (now : Nat) (g : Int)
    (s : String) (st : HistState)
    (h : lookupFlag st.active_refreshes (refreshKey g s) = false) :
    (refresh_server_data now g s [] st).1 = false ∧
    lookupFlag (refresh_server_data now g s [] st).2.active_refreshes
      (refreshKey g s) = false ∧
    (refresh_server_data now g s [] st).2.db.pvp_data.filter
      (fun d => docGuildServer d g s) = [] ∧
    (refresh_server_data now g s [] st).2.db.kill_events.filter
      (fun e => e.guild_id == g && e.server_id == s) = [] ∧
    (∀ lines2 : List String, lines2 ≠ [] →
      (refresh_server_data now g s lines2
        (refresh_server_data now g s [] st).2).1 = true) := by
  have e : refresh_server_data now g s [] st =
      (false,
        ⟨setFlag (setFlag st.active_refreshes (refreshKey g s) true)
          (refreshKey g s) false,
         clear_server_data g s st.db⟩) := by
    rw [refresh_server_data, if_neg (by simp [h])]
    rfl
  refine ⟨by rw [e], ?_, ?_, ?_, ?_⟩
  · rw [e]
    exact lookupFlag_setFlag _ _ _
  · rw [e]
    exact filter_not_filter _ _
  · rw [e]
    exact filter_not_filter _ _
  · intro lines2 hl2
    cases lines2 with
    | nil => exact absurd rfl hl2
    | cons a l =>
      rw [e, refresh_server_data,
        if_neg (by simp [lookupFlag_setFlag])]
      rfl

/-- C7 witness: the theorem applied to a concrete state holding a
pre-existing record and log entry, with a non-empty follow-up refresh. -/
theorem c7_empty_fetch_witness :
    (refresh_server_data 0 7 "s1" [] ⟨[], dbOld⟩).1 = false ∧
    lookupFlag (refresh_server_data 0 7 "s1" [] ⟨[], dbOld⟩).2.active_refreshes
      (refreshKey 7 "s1") = false ∧
    (refresh_server_data 0 7 "s1" [] ⟨[], dbOld⟩).2.db.pvp_data.filter
      (fun d => docGuildServer d 7 "s1") = [] ∧
    (refresh_server_data 0 7 "s1" [] ⟨[], dbOld⟩).2.db.kill_events.filter
      (fun e => e.guild_id == 7 && e.server_id == "s1") = [] ∧
    (refresh_server_data 0 7 "s1" [akLine]
      (refresh_server_data 0 7 "s1" [] ⟨[], dbOld⟩).2).1 = true := by
  have h := c7_empty_fetch_fails_guard_released 0 7 "s1" ⟨[], dbOld⟩ rfl
  exact ⟨h.1, h.2.1, h.2.2.1, h.2.2.2.1, h.2.2.2.2 [akLine] (by simp)⟩

theorem parseTimestamp_eq_none (ts : String) :
    parseTimestamp ts = none ↔
      (fromisoformat (pyReplaceChar ts 'Z' "+00:00") = none ∧
        strptimeYmdHms ts = none) := by
  unfold parseTimestamp
  cases h1 : fromisoformat (pyReplaceChar ts 'Z' "+00:00") with
  | some t => simp [h1]
  | none => cases h2 : strptimeYmdHms ts <;> simp [h1, h2]

theorem parse_csv_line_eq_none_iff (line : String) :
    parse_csv_line line = none ↔
      ((pySplitComma (pyStrip line)).length < 5 ∨
        parseTimestamp ((pySplitComma (pyStrip line)).getD 0 "") = none) := by
  simp only [parse_csv_line]
  by_cases h5 : (pySplitComma (pyStrip line)).length < 5
  · rw [if_pos h5]
    simp [h5]
  · rw [if_neg h5]
    cases hts : parseTimestamp ((pySplitComma (pyStrip line)).getD 0 "") with
    | none => simp only [hts]; simp [h5]
    | some ts => simp only [hts]; simp [h5]

/-- C8: parse fails exactly when the stripped line splits into fewer than
five comma fields, or when the timestamp field is accepted neither by the
ISO format with the zone marker normalized to a UTC offset nor by the
fallback year-month-day hour:minute:second pattern; and an unparseable
distance field (empty, the literal N/A, or non-numeric) never fails the
record but yields distance zero. -/
theorem c8_parse_failure_characterization (line : String) :
    (parse_csv_line line = none ↔
      ((pySplitComma (pyStrip line)).length < 5 ∨
        (fromisoformat (pyReplaceChar ((pySplitComma (pyStrip line)).getD 0 "")
            'Z' "+00:00") = none ∧
          strptimeYmdHms ((pySplitComma (pyStrip line)).getD 0 "") = none))) ∧
    (∀ kd, parse_csv_line line = some kd →
      ((pySplitComma (pyStrip line)).getD 4 "" = "" ∨
        (pySplitComma (pyStrip line)).getD 4 "" = "N/A" ∨
        pyFloat? ((pySplitComma (pyStrip line)).getD 4 "") = none) →
      kd.distance = 0) := by
  constructor
  · rw [parse_csv_line_eq_none_iff, parseTimestamp_eq_none]
  · intro kd h hd
    simp only [parse_csv_line] at h
    by_cases h5 : (pySplitComma (pyStrip line)).length < 5
    · rw [if_pos h5] at h
      exact absurd h (by simp)
    · rw [if_neg h5] at h
      cases hts : parseTimestamp ((pySplitComma (pyStrip line)).getD 0 "") with
      | none => rw [hts] at h; exact absurd h (by simp)
      | some ts =>
        rw [hts] at h
        injection h with h
        subst h
        dsimp only
        rcases hd with hd | hd | hd
        · rw [if_neg (fun hc => hc.1 hd)]
        · rw [if_neg (fun hc => hc.2 hd)]
        · by_cases hcond : (pySplitComma (pyStrip line)).getD 4 "" ≠ "" ∧
              (pySplitComma (pyStrip line)).getD 4 "" ≠ "N/A"
          · rw [if_pos hcond, hd]
          · rw [if_neg hcond]

/-- C8 witness: the theorem applied at a line with an N/A distance, which
parses with distance zero, and at a line failing both timestamp formats,
which parse rejects. -/
theorem c8_parse_failure_witness :
    parse_csv_line naLine = some evNA ∧ evNA.distance = 0 ∧
    parse_csv_line badLine = none := by
  refine ⟨by decide, ?_, ?_⟩
  · exact (c8_parse_failure_characterization naLine).2 evNA (by decide)
      (Or.inr (Or.inl (by decide)))
  · exact (c8_parse_failure_characterization badLine).1.mpr
      (Or.inr ⟨by decide, by decide⟩)

theorem readAllFiles_all_none (cfg : SftpConfig) (t : Transport)
    (hr : ∀ f, t.readFile f = none) (l : List (String × Nat))
    (acc : List String) :
    readAllFiles cfg t l acc =
      match l with
      | [] => Except.ok acc
      | _ :: _ => Except.error () := by
  cases l with
  | nil => rfl
  | cons f rest => simp [readAllFiles, hr]

/-- C9: missing credentials, a failed connection, a missing remote
directory, a failed listing, and per-file read failures each make both
fetch entry points return an empty sequence of lines instead of raising,
for every server configuration; the outer catch in each entry point means
no transport condition can propagate an error to the caller. -/
theorem c9_transport_failures_degrade_to_empty (cfg : SftpConfig)
    (t : Transport) :
    (credsOk cfg = false → kfFetch cfg t = [] ∧ histFetch cfg t = []) ∧
    (t.connectOk = false → kfFetch cfg t = [] ∧ histFetch cfg t = []) ∧
    (t.listing = Listing.notFound →
      kfFetch cfg t = [] ∧ histFetch cfg t = []) ∧
    (t.listing = Listing.failure →
      kfFetch cfg t = [] ∧ histFetch cfg t = []) ∧
    ((∀ f, t.readFile f = none) →
      kfFetch cfg t = [] ∧ histFetch cfg t = []) := by
  refine ⟨?_, ?_, ?_, ?_, ?_⟩ <;> intro h
  · constructor <;> simp [kfFetch, kfFetchBody, histFetch, histFetchBody, h]
  · by_cases hc : credsOk cfg = true <;>
      constructor <;>
      simp [kfFetch, kfFetchBody, histFetch, histFetchBody, hc, h]
  · by_cases hc : credsOk cfg = true <;>
      by_cases hcon : t.connectOk = true <;>
      constructor <;>
      simp [kfFetch, kfFetchBody, histFetch, histFetchBody, hc, hcon, h]
  · by_cases hc : credsOk cfg = true <;>
      by_cases hcon : t.connectOk = true <;>
      constructor <;>
      simp [kfFetch, kfFetchBody, histFetch, histFetchBody, hc, hcon, h]
  · by_cases hc : credsOk cfg = true
    · by_cases hcon : t.connectOk = true
      · cases hl : t.listing with
        | notFound =>
          constructor <;>
            simp [kfFetch, kfFetchBody, histFetch, histFetchBody, hc, hcon, hl]
        | failure =>
          constructor <;>
            simp [kfFetch, kfFetchBody, histFetch, histFetchBody, hc, hcon, hl]
        | ok items =>
          constructor
          · cases hf : items.filter (fun it => endsWithCsv it.1) with
            | nil => simp [kfFetch, kfFetchBody, hc, hcon, hl, hf]
            | cons c rest => simp [kfFetch, kfFetchBody, hc, hcon, hl, hf, h]
          · rw [histFetch, histFetchBody]
            rw [if_neg (by simp [hc]), if_neg (by simp [hcon]), hl]
            dsimp only
            rw [readAllFiles_all_none cfg t h]
            cases sortByMtime (items.filter (fun it => endsWithCsv it.1)) <;>
              rfl
      · constructor <;>
          simp [kfFetch, kfFetchBody, histFetch, histFetchBody, hc, hcon]
    · constructor <;>
        simp [kfFetch, kfFetchBody, histFetch, histFetchBody, hc]

/-- C9 witness: the theorem applied to a configuration with missing
credentials and to a transport whose reads all fail. -/
theorem c9_transport_witness :
    kfFetch cfgNoCred tReadFail = [] ∧ histFetch cfgNoCred tReadFail = [] ∧
    kfFetch cfgOk tReadFail = [] ∧ histFetch cfgOk tReadFail = [] := by
  have h1 := (c9_transport_failures_degrade_to_empty cfgNoCred tReadFail).1 rfl
  have h2 := (c9_transport_failures_degrade_to_empty cfgOk tReadFail).2.2.2.2
    (fun f => rfl)
  exact ⟨h1.1, h1.2, h2.1, h2.2⟩

/-- C10: for a line that parses successfully, the raw line enters the dedup
set even when the database write for the event fails: process_kill_event
swallows the failure and returns normally, the loop then marks the line
seen, the kill-event log is left without the event, and because the line
stays in the dedup set for the life of the process, every later
incremental pass skips it before parsing: the event is permanently
dropped and never retried. -/
theorem c10_failed_write_drops_event (now : Nat) (g : Int) (s line : String)
    (kd : KillData) (S : List String) (pv : List Doc)
    (ke : List KillEventRec) (rest : List Bool)
    (hb : ¬ pyStrip line = "") (hm : memLine line S = false)
    (hp : parse_csv_line line = some kd) :
    (parse_server_killfeed now g s [line]
      ⟨S, ⟨pv, ke, false :: rest⟩⟩).state.db.kill_events = ke ∧
    (parse_server_killfeed now g s [line]
      ⟨S, ⟨pv, ke, false :: rest⟩⟩).state.db.pvp_data = pv ∧
    memLine line (parse_server_killfeed now g s [line]
      ⟨S, ⟨pv, ke, false :: rest⟩⟩).state.parsedLines = true ∧
    (∀ st2 : IncState, memLine line st2.parsedLines = true →
      parse_server_killfeed now g s [line] st2 = ⟨0, [], st2⟩) ∧
    (∀ (lines2 : List String) (st2 : IncState),
      memLine line st2.parsedLines = true →
      memLine line
        (killfeedLoop now g s lines2 st2).state.parsedLines = true) := by
  have hne : ¬(pyStrip line = "" ∨
      memLine line (⟨S, ⟨pv, ke, false :: rest⟩⟩ : IncState).parsedLines
        = true) := by
    push_neg
    exact ⟨hb, by simp [hm]⟩
  have e1 : parse_server_killfeed now g s [line] ⟨S, ⟨pv, ke, false :: rest⟩⟩ =
      ⟨1, [kd], ⟨S ++ [line],
        process_kill_event now g s kd ⟨pv, ke, false :: rest⟩⟩⟩ := by
    rw [parse_server_killfeed, if_neg (by simp), killfeedLoop, if_neg hne, hp]
    rfl
  rw [e1, process_kill_event_insert_fails]
  refine ⟨rfl, rfl, memLine_append_self line S, ?_, ?_⟩
  · intro st2 h2
    exact killfeed_single_seen now g s line st2 h2
  · intro lines2 st2 h2
    exact killfeedLoop_mem_mono now g s line lines2 st2 h2

/-- C10 witness: the theorem applied to the concrete PvP line with a store
whose first insert fails. -/
theorem c10_failed_write_witness :
    (parse_server_killfeed 0 7 "s1" [akLine]
      ⟨[], ⟨[], [], [false]⟩⟩).state.db.kill_events = [] ∧
    memLine akLine (parse_server_killfeed 0 7 "s1" [akLine]
      ⟨[], ⟨[], [], [false]⟩⟩).state.parsedLines = true ∧
    parse_server_killfeed 0 7 "s1" [akLine]
        (parse_server_killfeed 0 7 "s1" [akLine]
          ⟨[], ⟨[], [], [false]⟩⟩).state =
      ⟨0, [], (parse_server_killfeed 0 7 "s1" [akLine]
        ⟨[], ⟨[], [], [false]⟩⟩).state⟩ := by
  have h := c10_failed_write_drops_event 0 7 "s1" akLine evAK [] [] [] []
    (by decide) rfl (by decide)
  exact ⟨h.1, h.2.2.1, h.2.2.2.1 _ h.2.2.1⟩

end Killfeed
